import Mathlib

/-!
Shallow embedding of the Salesforce MCP server adapter (`src/main.py`)
and, where the external `SalesforceClient` collaborator is needed, a
spec-modelled remote CRM.  The adapter code is stateless apart from the
module-level `sf_client` singleton; tools resolve the client via
`get_client` and forward their arguments to the corresponding client
method, returning its result (or, for update/delete, the constant
`true` on success).  Fallible calls are modelled with `Except`.
-/

namespace SalesforceMCP

/-- Failure modes surfaced by the external client (auth failure, network
error, remote validation error, record not found). -/
inductive SFError where
  | authFailure
  | networkError
  | validationError (msg : String)
  | notFound
  deriving DecidableEq, Repr

/-- A CRM record: an opaque key-value mapping (field name to value). -/
def Record := List (String × String)

instance : DecidableEq Record := inferInstanceAs (DecidableEq (List (String × String)))

/-- The external `SalesforceClient` collaborator, as the adapter sees it:
one fallible method per CRM operation.  Methods may return a value or
raise (`Except.error`). -/
structure SalesforceClient where
  get_accounts : Nat → Option (List String) → Except SFError (List Record)
  get_account_by_id : String → Option (List String) → Except SFError Record
  search_accounts : String → Nat → Except SFError (List Record)
  create_account : Record → Except SFError String
  update_account : String → Record → Except SFError Unit
  delete_account : String → Except SFError Unit
  get_account_opportunities : String → Nat → Except SFError (List Record)
  get_account_contacts : String → Nat → Except SFError (List Record)

/-- The constructor call `SalesforceClient(auto_auth=True)`: it yields a
client or raises.  Passed as a parameter since its outcome depends on the
environment. -/
def MkClient := Except SFError SalesforceClient

/-- The module-level `sf_client` global: `None` until a construction
succeeds. -/
def SFState := Option SalesforceClient

/-- `get_client` from `src/main.py`: if `sf_client is None`, construct
(`sf_client = SalesforceClient(auto_auth=True)`) and store; otherwise
return the stored instance.  If the constructor raises, the assignment
never runs, so the global stays `None`. -/
def get_client (mk : MkClient) (sf_client : SFState) :
    Except SFError SalesforceClient × SFState :=
  match sf_client with
  | some c => (.ok c, some c)
  | none =>
    match mk with
    | .ok c => (.ok c, some c)
    | .error e => (.error e, none)

namespace Tools

/-- Tool `get_accounts`: `client = get_client(); return
client.get_accounts(limit=limit, fields=fields)`. -/
def get_accounts (mk : MkClient) (st : SFState) (limit : Nat)
    (fields : Option (List String)) :
    Except SFError (List Record) × SFState :=
  match get_client mk st with
  | (.ok client, st') => (client.get_accounts limit fields, st')
  | (.error e, st') => (.error e, st')

/-- Tool `get_account_by_id`: forwards `account_id` and `fields` to
`client.get_account_by_id`. -/
def get_account_by_id (mk : MkClient) (st : SFState) (account_id : String)
    (fields : Option (List String)) :
    Except SFError Record × SFState :=
  match get_client mk st with
  | (.ok client, st') => (client.get_account_by_id account_id fields, st')
  | (.error e, st') => (.error e, st')

/-- Tool `search_accounts`: forwards `search_term` and `limit` to
`client.search_accounts`. -/
def search_accounts (mk : MkClient) (st : SFState) (search_term : String)
    (limit : Nat) :
    Except SFError (List Record) × SFState :=
  match get_client mk st with
  | (.ok client, st') => (client.search_accounts search_term limit, st')
  | (.error e, st') => (.error e, st')

/-- Tool `create_account`: forwards `account_data` to
`client.create_account`, returning the created id. -/
def create_account (mk : MkClient) (st : SFState) (account_data : Record) :
    Except SFError String × SFState :=
  match get_client mk st with
  | (.ok client, st') => (client.create_account account_data, st')
  | (.error e, st') => (.error e, st')

/-- Tool `update_account`: calls `client.update_account(account_id,
account_data)` and then `return True`.  A client failure propagates; the
tool never reaches `return True` in that case. -/
def update_account (mk : MkClient) (st : SFState) (account_id : String)
    (account_data : Record) :
    Except SFError Bool × SFState :=
  match get_client mk st with
  | (.ok client, st') =>
    match client.update_account account_id account_data with
    | .ok _ => (.ok true, st')
    | .error e => (.error e, st')
  | (.error e, st') => (.error e, st')

/-- Tool `delete_account`: calls `client.delete_account(account_id)` and
then `return True`. -/
def delete_account (mk : MkClient) (st : SFState) (account_id : String) :
    Except SFError Bool × SFState :=
  match get_client mk st with
  | (.ok client, st') =>
    match client.delete_account account_id with
    | .ok _ => (.ok true, st')
    | .error e => (.error e, st')
  | (.error e, st') => (.error e, st')

/-- Tool `get_account_opportunities`: forwards `account_id` and `limit`. -/
def get_account_opportunities (mk : MkClient) (st : SFState)
    (account_id : String) (limit : Nat) :
    Except SFError (List Record) × SFState :=
  match get_client mk st with
  | (.ok client, st') => (client.get_account_opportunities account_id limit, st')
  | (.error e, st') => (.error e, st')

/-- Tool `get_account_contacts`: forwards `account_id` and `limit`. -/
def get_account_contacts (mk : MkClient) (st : SFState)
    (account_id : String) (limit : Nat) :
    Except SFError (List Record) × SFState :=
  match get_client mk st with
  | (.ok client, st') => (client.get_account_contacts account_id limit, st')
  | (.error e, st') => (.error e, st')

/-- Invocation of the `get_accounts` tool with possibly omitted
arguments; the signature declares `limit: int = 10, fields: list[str] |
None = None`, so omission supplies those values. -/
def get_accounts_call (mk : MkClient) (st : SFState) (limit : Option Nat)
    (fields : Option (Option (List String))) :
    Except SFError (List Record) × SFState :=
  get_accounts mk st (limit.getD 10) (fields.getD none)

/-- Invocation of `get_account_by_id` with `fields` possibly omitted;
the signature declares `fields: list[str] | None = None`. -/
def get_account_by_id_call (mk : MkClient) (st : SFState)
    (account_id : String) (fields : Option (Option (List String))) :
    Except SFError Record × SFState :=
  get_account_by_id mk st account_id (fields.getD none)

/-- Invocation of `search_accounts` with `limit` possibly omitted; the
signature declares `limit: int = 10`. -/
def search_accounts_call (mk : MkClient) (st : SFState)
    (search_term : String) (limit : Option Nat) :
    Except SFError (List Record) × SFState :=
  search_accounts mk st search_term (limit.getD 10)

/-- Invocation of `get_account_opportunities` with `limit` possibly
omitted; the signature declares `limit: int = 10`. -/
def get_account_opportunities_call (mk : MkClient) (st : SFState)
    (account_id : String) (limit : Option Nat) :
    Except SFError (List Record) × SFState :=
  get_account_opportunities mk st account_id (limit.getD 10)

/-- Invocation of `get_account_contacts` with `limit` possibly omitted;
the signature declares `limit: int = 10`. -/
def get_account_contacts_call (mk : MkClient) (st : SFState)
    (account_id : String) (limit : Option Nat) :
    Except SFError (List Record) × SFState :=
  get_account_contacts mk st account_id (limit.getD 10)

end Tools

/-! ## Server startup (`main` in `src/main.py`) -/

/-- Outcome of the startup sequence: whether the warning branch ran,
whether `server.serve` was reached, and the resulting `sf_client`
global. -/
structure StartupResult where
  warned : Bool
  served : Bool
  finalState : SFState

/-- `main` from `src/main.py`: `try: get_client() except Exception:
print warning`; then `await server.serve(...)` runs unconditionally. -/
def mainStartup (mk : MkClient) : StartupResult :=
  match get_client mk none with
  | (.ok _, st') => ⟨false, true, st'⟩
  | (.error _, st') => ⟨true, true, st'⟩

/-! ## Spec-modelled remote CRM

The `SalesforceClient` implementation (`client.py`) is imported from the
repository root and is not part of this excerpt; the definitions below
model its visible behaviour from the spec. -/

/-- Modelled from the spec: the remote CRM holds opaque key-value
records addressed by a stable opaque identifier string; all state lives
remotely.  `nextId` drives fresh-identifier generation on create. -/
structure CRMState where
  records : List (String × Record)
  nextId : Nat

/-- `needle` occurs as a contiguous substring of `hay`. -/
def strContains (hay needle : String) : Bool :=
  decide (needle.toList <:+: hay.toList)

/-- The search term occurs in some field value of the record. -/
def recordMatches (term : String) (r : Record) : Bool :=
  r.any fun kv => strContains kv.2 term

/-- Modelled from the spec: `SalesforceClient.search_accounts` uses SOSL
to find accounts matching the term, returning at most `limit` records,
each containing the term in a matched field. -/
def specSearchAccounts (st : CRMState) (term : String) (limit : Nat) :
    List Record :=
  ((st.records.filter fun p => recordMatches term p.2).map Prod.snd).take limit

/-- Fresh identifier for the `n`-th created record. -/
def genId (n : Nat) : String := "001MCP" ++ toString n

/-- Modelled from the spec: `SalesforceClient.create_account` stores the
submitted fields under a fresh identifier and returns that identifier. -/
def specCreateAccount (st : CRMState) (data : Record) : String × CRMState :=
  let id := genId st.nextId
  (id, ⟨(id, data) :: st.records, st.nextId + 1⟩)

/-- Modelled from the spec: `SalesforceClient.get_account_by_id` returns
the record stored under the identifier, raising when there is none. -/
def specGetAccountById (st : CRMState) (id : String) : Except SFError Record :=
  match st.records.find? (fun p => p.1 == id) with
  | some p => .ok p.2
  | none => .error .notFound

/-- Modelled from the spec: `SalesforceClient.delete_account` removes
the record stored under the identifier, raising when there is none. -/
def specDeleteAccount (st : CRMState) (id : String) : Except SFError CRMState :=
  if st.records.any (fun p => p.1 == id) then
    .ok ⟨st.records.filter fun p => !(p.1 == id), st.nextId⟩
  else
    .error .notFound

/-- Modelled from the spec: `SalesforceClient.update_account` replaces
the fields of the record stored under the identifier, raising when there
is none. -/
def specUpdateAccount (st : CRMState) (id : String) (data : Record) :
    Except SFError CRMState :=
  if st.records.any (fun p => p.1 == id) then
    .ok ⟨st.records.map (fun p => if p.1 == id then (p.1, data) else p), st.nextId⟩
  else
    .error .notFound

/-- Modelled from the spec: the external client viewed against a fixed
remote CRM state.  Each method performs one call against that state and
returns parsed results or raises. -/
def specClient (st : CRMState) : SalesforceClient where
  get_accounts := fun limit _fields => .ok ((st.records.map Prod.snd).take limit)
  get_account_by_id := fun id _fields => specGetAccountById st id
  search_accounts := fun term limit => .ok (specSearchAccounts st term limit)
  create_account := fun data => .ok (specCreateAccount st data).1
  update_account := fun id data => (specUpdateAccount st id data).map fun _ => ()
  delete_account := fun id => (specDeleteAccount st id).map fun _ => ()
  get_account_opportunities := fun _ _ => .ok []
  get_account_contacts := fun _ _ => .ok []

/-- The remote CRM state after attempting a delete: the post-delete
state on success, the unchanged state when the delete raised. -/
def crmAfterDelete (st : CRMState) (id : String) : CRMState :=
  match specDeleteAccount st id with
  | .ok st' => st'
  | .error _ => st

/-! ## Concrete clients used to evaluate theorems -/

/-- A client whose every method succeeds. -/
def okClient : SalesforceClient where
  get_accounts := fun _ _ => .ok []
  get_account_by_id := fun _ _ => .ok []
  search_accounts := fun _ _ => .ok []
  create_account := fun _ => .ok "001MCP0"
  update_account := fun _ _ => .ok ()
  delete_account := fun _ => .ok ()
  get_account_opportunities := fun _ _ => .ok []
  get_account_contacts := fun _ _ => .ok []

/-- A small concrete CRM state: two accounts, one of whose names
contains "Inc". -/
def sampleCRM : CRMState :=
  ⟨[("001MCP0", [("Name", "Acme Inc")]), ("001MCP1", [("Name", "Globex")])], 2⟩

/-- A client whose every method raises a network error. -/
def errClient : SalesforceClient where
  get_accounts := fun _ _ => .error .networkError
  get_account_by_id := fun _ _ => .error .networkError
  search_accounts := fun _ _ => .error .networkError
  create_account := fun _ => .error .networkError
  update_account := fun _ _ => .error .networkError
  delete_account := fun _ => .error .networkError
  get_account_opportunities := fun _ _ => .error .networkError
  get_account_contacts := fun _ _ => .error .networkError

/-! ## Claims -/

/-- C1: for every tool in the surface (get_accounts, get_account_by_id,
search_accounts, create_account, get_account_opportunities,
get_account_contacts), the tool's result equals exactly the value
returned by the corresponding client method applied to the tool's
arguments, with the singleton state untouched: no transformation,
filtering, caching, or reordering by the adapter. -/
theorem c1_tools_forward_client_results (mk : MkClient) (c : SalesforceClient)
    (limit : Nat) (fields : Option (List String)) (id term : String)
    (data : Record) :
    Tools.get_accounts mk (some c) limit fields
      = (c.get_accounts limit fields, some c) ∧
    Tools.get_account_by_id mk (some c) id fields
      = (c.get_account_by_id id fields, some c) ∧
    Tools.search_accounts mk (some c) term limit
      = (c.search_accounts term limit, some c) ∧
    Tools.create_account mk (some c) data
      = (c.create_account data, some c) ∧
    Tools.get_account_opportunities mk (some c) id limit
      = (c.get_account_opportunities id limit, some c) ∧
    Tools.get_account_contacts mk (some c) id limit
      = (c.get_account_contacts id limit, some c) :=
  ⟨rfl, rfl, rfl, rfl, rfl, rfl⟩

/-- C2: for every tool, if the client method raises an error, the tool
call raises that same error unchanged: no tool catches, retries, wraps,
or substitutes a default result for a client failure. -/
theorem c2_errors_propagate_unchanged (mk : MkClient) (c : SalesforceClient)
    (limit : Nat) (fields : Option (List String)) (id term : String)
    (data : Record) (e : SFError) :
    (c.get_accounts limit fields = .error e →
      Tools.get_accounts mk (some c) limit fields = (.error e, some c)) ∧
    (c.get_account_by_id id fields = .error e →
      Tools.get_account_by_id mk (some c) id fields = (.error e, some c)) ∧
    (c.search_accounts term limit = .error e →
      Tools.search_accounts mk (some c) term limit = (.error e, some c)) ∧
    (c.create_account data = .error e →
      Tools.create_account mk (some c) data = (.error e, some c)) ∧
    (c.update_account id data = .error e →
      Tools.update_account mk (some c) id data = (.error e, some c)) ∧
    (c.delete_account id = .error e →
      Tools.delete_account mk (some c) id = (.error e, some c)) ∧
    (c.get_account_opportunities id limit = .error e →
      Tools.get_account_opportunities mk (some c) id limit = (.error e, some c)) ∧
    (c.get_account_contacts id limit = .error e →
      Tools.get_account_contacts mk (some c) id limit = (.error e, some c)) := by
  refine ⟨fun h => ?_, fun h => ?_, fun h => ?_, fun h => ?_,
    fun h => ?_, fun h => ?_, fun h => ?_, fun h => ?_⟩ <;>
    simp [Tools.get_accounts, Tools.get_account_by_id, Tools.search_accounts,
      Tools.create_account, Tools.update_account, Tools.delete_account,
      Tools.get_account_opportunities, Tools.get_account_contacts,
      get_client, h]

/-- Evaluation of `c2_errors_propagate_unchanged` on a concrete failing
client: the tool surfaces the client's network error unchanged. -/
theorem c2_witness :
    Tools.get_accounts (.ok okClient) (some errClient) 5 none
      = (.error .networkError, some errClient) :=
  (c2_errors_propagate_unchanged (.ok okClient) errClient 5 none
    "a" "b" [] .networkError).1 rfl

/-- C3: the client is a lazily created singleton: the first call to
`get_client` constructs the client instance and stores it, and every
subsequent call returns that same instance for any constructor outcome,
so no per-call reconnect occurs. -/
theorem c3_lazy_singleton (c : SalesforceClient) :
    get_client (.ok c) none = (.ok c, some c) ∧
    ∀ mk' : MkClient, get_client mk' (some c) = (.ok c, some c) :=
  ⟨rfl, fun _ => rfl⟩

/-- C4: `update_account` and `delete_account` each return `true` exactly
when the underlying client call completes without raising, and neither
tool ever returns `false`. -/
theorem c4_update_delete_never_false (mk : MkClient) (st : SFState)
    (c : SalesforceClient) (id : String) (data : Record) (b : Bool) :
    ((Tools.update_account mk st id data).1 = .ok b → b = true) ∧
    ((Tools.delete_account mk st id).1 = .ok b → b = true) ∧
    ((Tools.update_account mk (some c) id data).1 = .ok true ↔
      c.update_account id data = .ok ()) ∧
    ((Tools.delete_account mk (some c) id).1 = .ok true ↔
      c.delete_account id = .ok ()) := by
  refine ⟨?_, ?_, ?_, ?_⟩
  · unfold Tools.update_account get_client
    rcases st with _ | c'
    · rcases mk with e | c''
      · simp
      · rcases h : c''.update_account id data with e' | u <;> simp [h]
    · rcases h : c'.update_account id data with e' | u <;> simp [h]
  · unfold Tools.delete_account get_client
    rcases st with _ | c'
    · rcases mk with e | c''
      · simp
      · rcases h : c''.delete_account id with e' | u <;> simp [h]
    · rcases h : c'.delete_account id with e' | u <;> simp [h]
  · unfold Tools.update_account get_client
    rcases h : c.update_account id data with e' | u
    · simp [h]
    · cases u; simp [h]
  · unfold Tools.delete_account get_client
    rcases h : c.delete_account id with e' | u
    · simp [h]
    · cases u; simp [h]

/-- Evaluation of `c4_update_delete_never_false` on a concrete
succeeding client: the tool returned `.ok true`, so the extracted
boolean is `true`. -/
theorem c4_witness :
    (Tools.update_account (.ok okClient) (some okClient) "x" []).1
      = Except.ok true ∧ true = true :=
  ⟨rfl, (c4_update_delete_never_false (.ok okClient) (some okClient)
    okClient "x" [] true).1 rfl⟩

/-- C5: if client initialization fails during startup, the failure is
surfaced as a warning and the server still starts and serves; the
startup sequence never aborts on a client initialization error. -/
theorem c5_startup_never_aborts (mk : MkClient) :
    (mainStartup mk).served = true ∧
    ∀ e, mk = .error e → (mainStartup mk).warned = true := by
  rcases mk with e | c
  · exact ⟨rfl, fun _ _ => rfl⟩
  · exact ⟨rfl, fun e h => by cases h⟩

/-- Evaluation of `c5_startup_never_aborts` on a failing constructor:
the server serves and the warning branch ran. -/
theorem c5_witness :
    (mainStartup (.error .authFailure)).served = true ∧
    (mainStartup (.error .authFailure)).warned = true :=
  ⟨(c5_startup_never_aborts (.error .authFailure)).1,
    (c5_startup_never_aborts (.error .authFailure)).2 .authFailure rfl⟩

/-- Every record returned by the spec-modelled search matches the search
term in some field. -/
theorem specSearchAccounts_matches (st : CRMState) (term : String)
    (limit : Nat) :
    ∀ r ∈ specSearchAccounts st term limit, recordMatches term r = true := by
  intro r hr
  have hr' := List.mem_of_mem_take hr
  obtain ⟨p, hp, rfl⟩ := List.mem_map.mp hr'
  exact (List.mem_filter.mp hp).2

/-- After attempting a delete, no record is stored under the deleted
identifier: the delete filtered it out, or it was never there and the
delete raised. -/
theorem find?_after_delete_none (st : CRMState) (id : String) :
    ((crmAfterDelete st id).records.find? fun p => p.1 == id) = none := by
  by_cases h : st.records.any (fun p => p.1 == id) = true
  · simp only [crmAfterDelete, specDeleteAccount, if_pos h]
    rw [List.find?_eq_none]
    intro p hp
    simpa using (List.mem_filter.mp hp).2
  · simp only [crmAfterDelete, specDeleteAccount, if_neg h]
    rw [List.find?_eq_none]
    intro p hp hq
    exact h (List.any_eq_true.mpr ⟨p, hp, hq⟩)

/-- C6: `search_accounts("Inc", 5)` returns a list of at most 5 records,
and every returned record contains "Inc" in a matched field
(spec-modelled client behaviour). -/
theorem c6_search_inc_at_most_five (mk : MkClient) (st : CRMState) :
    (Tools.search_accounts mk (some (specClient st)) "Inc" 5).1
      = .ok (specSearchAccounts st "Inc" 5) ∧
    (specSearchAccounts st "Inc" 5).length ≤ 5 ∧
    ∀ r ∈ specSearchAccounts st "Inc" 5, recordMatches "Inc" r = true := by
  refine ⟨rfl, ?_, specSearchAccounts_matches st "Inc" 5⟩
  unfold specSearchAccounts
  exact List.length_take_le 5 _

/-- Evaluation of `c6_search_inc_at_most_five` on a concrete CRM: of two
stored accounts only "Acme Inc" matches, and it matches "Inc". -/
theorem c6_witness :
    (Tools.search_accounts (.ok okClient) (some (specClient sampleCRM))
      "Inc" 5).1 = .ok [[("Name", "Acme Inc")]] ∧
    recordMatches "Inc" [("Name", "Acme Inc")] = true := by
  constructor
  · rw [(c6_search_inc_at_most_five (.ok okClient) sampleCRM).1]
    have h : specSearchAccounts sampleCRM "Inc" 5 = [[("Name", "Acme Inc")]] := by
      decide
    rw [h]
  · exact (c6_search_inc_at_most_five (.ok okClient) sampleCRM).2.2
      [("Name", "Acme Inc")] (by decide)

/-- C7: a record created via the `create_account` tool is found by a
subsequent `get_account_by_id` with the returned identifier, and the
returned record is exactly the submitted fields (spec-modelled client
behaviour). -/
theorem c7_create_then_get (mk mk' : MkClient) (st : CRMState)
    (data : Record) :
    (Tools.create_account mk (some (specClient st)) data).1
      = .ok (specCreateAccount st data).1 ∧
    (Tools.get_account_by_id mk'
      (some (specClient (specCreateAccount st data).2))
      (specCreateAccount st data).1 none).1 = .ok data := by
  refine ⟨rfl, ?_⟩
  simp [Tools.get_account_by_id, get_client, specClient, specGetAccountById,
    specCreateAccount]

/-- C8: `delete_account(id)` followed by `get_account_by_id(id)` fails:
after a successful delete the record is gone, and when the delete itself
raised the record was never there, so the lookup raises not-found either
way (spec-modelled client behaviour). -/
theorem c8_delete_then_get_fails (mk mk' : MkClient) (st : CRMState)
    (id : String) :
    (Tools.delete_account mk (some (specClient st)) id).1
      = (if st.records.any (fun p => p.1 == id) then .ok true
         else .error .notFound) ∧
    (Tools.get_account_by_id mk' (some (specClient (crmAfterDelete st id)))
      id none).1 = .error .notFound := by
  constructor
  · by_cases h : st.records.any (fun p => p.1 == id) = true
    · simp [Tools.delete_account, get_client, specClient, specDeleteAccount,
        Except.map, h]
    · simp [Tools.delete_account, get_client, specClient, specDeleteAccount,
        Except.map, h]
  · simp [Tools.get_account_by_id, get_client, specClient, specGetAccountById,
      find?_after_delete_none]

/-- C9: a failed client initialization is not cached: if constructing
the client raises, the stored singleton remains unset, so the next call
to `get_client` attempts construction again and succeeds once the
environment is fixed. -/
theorem c9_failed_init_not_cached (e : SFError) (c : SalesforceClient) :
    get_client (.error e) none = (.error e, none) ∧
    get_client (.ok c) (get_client (.error e) none).2 = (.ok c, some c) :=
  ⟨rfl, rfl⟩

/-- C10: when `limit` is omitted every list-returning tool uses the
default limit 10, and when `fields` is omitted `get_accounts` and
`get_account_by_id` pass `fields` as absent (`None`) to the client. -/
theorem c10_omitted_argument_defaults (mk : MkClient) (c : SalesforceClient)
    (id term : String) :
    (Tools.get_accounts_call mk (some c) none none).1 = c.get_accounts 10 none ∧
    (Tools.search_accounts_call mk (some c) term none).1 = c.search_accounts term 10 ∧
    (Tools.get_account_opportunities_call mk (some c) id none).1
      = c.get_account_opportunities id 10 ∧
    (Tools.get_account_contacts_call mk (some c) id none).1
      = c.get_account_contacts id 10 ∧
    (Tools.get_account_by_id_call mk (some c) id none).1
      = c.get_account_by_id id none :=
  ⟨rfl, rfl, rfl, rfl, rfl⟩

end SalesforceMCP
